import Mathlib

/-
Shallow embedding of `src/ceab/ceab.py` (class `CEAB` and the module-level
function `read_ceab_data`).

Modelling conventions:
* A pandas cell value is a `Value`: a string, a rational number, or null
  (NaN).  Rationals stand in for the floats the code manipulates; every
  comparison the claims exercise is on exactly representable values.
* A pandas `DataFrame` is a `Table`: an ordered list of column names plus an
  ordered list of rows, each row a list of cells aligned with the columns.
* pandas equality (`df[col] == v`) is `pandasEq`: null compares unequal to
  everything, including null, mirroring NaN semantics.
* `pd.cut(..., bins=[0,b1,b2,b3,b4], labels=[1,2,3,4], include_lowest=True)`
  with the default `right=True` assigns the intervals
  [0,b1], (b1,b2], (b2,b3], (b3,b4]; values outside [0, b4] become NaN,
  modelled as `none`.  (`pd.cut` additionally rejects non-monotonic bins;
  the model is used under monotonicity hypotheses where that matters.)
* `.astype(int)` on a categorical column containing NaN raises `ValueError`;
  this is the `NormError.castNaN` outcome.
* Exceptions are modelled with `Except`; warnings are returned as lists.
-/


/-- Cell values of the embedded DataFrames: strings, numbers, or null (NaN). -/
inductive Value where
  | str : String → Value
  | num : ℚ → Value
  | null : Value

deriving DecidableEq

deriving instance DecidableEq for Except

/-- pandas elementwise equality: NaN (null) is unequal to everything,
including itself; otherwise structural equality. -/
def pandasEq (a b : Value) : Bool :=
  match a, b with
  | .null, _ => false
  | _, .null => false
  | a, b => decide (a = b)

/-- A DataFrame: column names in order, and rows of cells aligned with them. -/
structure Table where
  cols : List String
  rows : List (List Value)

deriving DecidableEq

/-- A CEAB object's four tables (`self._data`, keyed in `_attribute_names`
order: instructor, course, measurement, data). -/
structure CEAB where
  instructor : Table
  course : Table
  measurement : Table
  data : Table

deriving DecidableEq

/-- `pd.DataFrame()`: no columns, no rows. -/
def emptyTable : Table := ⟨[], []⟩

/-- `CEAB()` with no data file: every table is an empty DataFrame
(ceab.py lines 158-161). -/
def emptyCEAB : CEAB := ⟨emptyTable, emptyTable, emptyTable, emptyTable⟩

/-- The deduplication key of a row: the cell in the table's first column
(`drop_duplicates(subset=df.columns[0])`). -/
def rowKey (r : List Value) : Option Value := r.head?

/-- `drop_duplicates(..., keep='first')` on the first column: keep a row iff
its key has not been seen before.  pandas treats NaN keys as duplicates of
each other, which matches plain equality of `Option Value` here. -/
def dedupFirstAux (seen : List (Option Value)) : List (List Value) → List (List Value)
  | [] => []
  | r :: rs =>
    if rowKey r ∈ seen then dedupFirstAux seen rs
    else r :: dedupFirstAux (rowKey r :: seen) rs

/-- Deduplicate rows by first-column key, keeping first occurrences. -/
def dedupFirst (rows : List (List Value)) : List (List Value) :=
  dedupFirstAux [] rows

/-- `pd.concat([a, b])`: rows appended; both operands have equal column sets
in every reachable use, except that an empty frame (no columns) contributes
nothing, so the result takes the other operand's columns. -/
def concatTables (a b : Table) : Table :=
  { cols := if a.cols.isEmpty then b.cols else a.cols
    rows := a.rows ++ b.rows }

/-- Error raised inside `CEAB.combine`: `df.columns[0]` on a frame with no
columns raises `IndexError` (ceab.py line 264). -/
inductive CombineError where
  | noColumns : CombineError

deriving DecidableEq

/-- One iteration of the `combine` loop (ceab.py lines 262-264): concatenate,
then drop duplicate keys in the first column, keeping the first occurrence.
Accessing `columns[0]` on a column-less concatenation raises. -/
def combineTable (a b : Table) : Except CombineError Table :=
  let t := concatTables a b
  match t.cols with
  | [] => .error .noColumns
  | _ :: _ => .ok { t with rows := dedupFirst t.rows }

/-- `CEAB.combine(first, second)` (ceab.py lines 245-265): the loop runs over
the four tables in `_attribute_names` order and the first `IndexError`
aborts the call. -/
def combine (a b : CEAB) : Except CombineError CEAB :=
  match combineTable a.instructor b.instructor with
  | .error e => .error e
  | .ok ti =>
    match combineTable a.course b.course with
    | .error e => .error e
    | .ok tc =>
      match combineTable a.measurement b.measurement with
      | .error e => .error e
      | .ok tm =>
        match combineTable a.data b.data with
        | .error e => .error e
        | .ok td => .ok ⟨ti, tc, tm, td⟩

/-- Keys of a list of rows, in order. -/
def rowKeys (rows : List (List Value)) : List (Option Value) :=
  rows.map rowKey

/-- The wide-format Data sheet (after skipping the instruction row): a
`studentID` column plus one column per measurementID, cells being raw
scores or blank (NaN). -/
structure WideData where
  students : List Value
  measCols : List (String × List (Option ℚ))

/-- `pd.melt(data, id_vars=['studentID'], var_name='measurementID')`
(ceab.py lines 61-64): stacks the measurement columns one after the other
(column-major), pairing each cell with its row's studentID.  The melted
frame gets a fresh 0-based range index.  (The code passes
`value_vars=data.columns.tolist().remove('studentID')`, which is `None`
since `list.remove` returns `None`, so all non-id columns are melted.) -/
def meltData (w : WideData) : List (Value × String × Option ℚ) :=
  w.measCols.flatMap (fun mc => (w.students.zip mc.2).map (fun sv => (sv.1, mc.1, sv.2)))

/-- One row of the long-form data table after loading: `dataID` is the
synthetic index, `value` the (still raw) score. -/
structure DataRow where
  dataID : ℕ
  studentID : Value
  measurementID : Value
  value : ℚ

deriving DecidableEq

/-- Filtering of the melted table (ceab.py lines 67-71): `dropna()` removes
any row with a null cell (null value or null studentID; the measurementID
is a column name, never null), then rows with `value == 0` are removed, and
finally `dataID` is set to the surviving rows' ORIGINAL melt index (the
pandas index labels are preserved by `dropna` and boolean filtering).
`i` is the index of the first row of `l` within the melted table. -/
def filterIndexed (i : ℕ) : List (Value × String × Option ℚ) → List DataRow
  | [] => []
  | (s, mid, v) :: rest =>
    match v with
    | none => filterIndexed (i + 1) rest
    | some q =>
      if s = Value.null ∨ q = 0 then filterIndexed (i + 1) rest
      else ⟨i, s, Value.str mid, q⟩ :: filterIndexed (i + 1) rest

/-- The long-form data rows a load constructs from the wide Data sheet. -/
def buildDataRows (w : WideData) : List DataRow :=
  filterIndexed 0 (meltData w)

/-- A data row rendered as a row of the `data` DataFrame, columns
`['dataID', 'studentID', 'measurementID', 'value']`. -/
def dataRowCells (r : DataRow) : List Value :=
  [Value.num r.dataID, r.studentID, r.measurementID, Value.num r.value]

/-- The `data` table as a DataFrame (after `insert(0, 'dataID', ...)`). -/
def dataTableOf (w : WideData) : Table :=
  ⟨["dataID", "studentID", "measurementID", "value"], (buildDataRows w).map dataRowCells⟩

/-- `CEAB.valid_keys_in` (ceab.py lines 26-31): the schema registry. -/
def valid_keys_in (table : String) : List String :=
  if table = "instructor" then ["instructorID", "firstName", "lastName"]
  else if table = "course" then
    ["courseID", "instructorID", "prefix", "number", "suffix", "academicYear", "yearInProgram"]
  else if table = "measurement" then
    ["measurementID", "courseID", "attribute", "indicator", "deliverableType",
     "deliverableName", "date", "gradeScale", "maxScore", "minPercentScore2",
     "minPercentScore3", "minPercentScore4", "improvementTheme"]
  else if table = "data" then ["dataID", "studentID", "measurementID", "value"]
  else []

/-- `no_nan_columns` (ceab.py lines 78-80): a deep copy of the registry with
`maxScore`, `minPercentScore2`, `minPercentScore3`, `minPercentScore4` and
`improvementTheme` removed from the measurement list.  Note the dictionary
still contains ALL FOUR tables, `data` included. -/
def noNanColumns (table : String) : List String :=
  if table = "measurement" then
    ["measurementID", "courseID", "attribute", "indicator", "deliverableType",
     "deliverableName", "date", "gradeScale"]
  else valid_keys_in table

/-- `row[col]`: look the column up by name and return that cell.  Out-of-range
lookups (never reached in the audited uses, where column conformance has been
checked) default to null. -/
def getCellD (cols : List String) (row : List Value) (c : String) : Value :=
  match cols.findIdx? (fun x => x = c) with
  | none => Value.null
  | some i => (row.get? i).getD Value.null

/-- One warning emitted by the NaN audit (ceab.py lines 90-92): it names the
owning table, the offending column, and the value of the row's
`f'{table}ID'` cell. -/
structure NullWarning where
  table : String
  column : String
  keyValue : Value

deriving DecidableEq

/-- The NaN audit of one table (ceab.py lines 83-92): for each no-NaN column
in order, for each row whose cell in that column is null, emit a warning
carrying the table name, the column, and the row's `f'{table}ID'` value.
The audit is pure: it neither drops rows nor aborts the load. -/
def nullAuditTable (name : String) (t : Table) : List NullWarning :=
  (noNanColumns name).flatMap (fun c =>
    (t.rows.filter (fun r => decide (getCellD t.cols r c = Value.null))).map
      (fun r => ⟨name, c, getCellD t.cols r (name ++ "ID")⟩))

/-- The NaN audit over `no_nan_columns.items()` in insertion order:
instructor, course, measurement, data. -/
def nullAudit (c : CEAB) : List NullWarning :=
  nullAuditTable "instructor" c.instructor ++ nullAuditTable "course" c.course ++
    nullAuditTable "measurement" c.measurement ++ nullAuditTable "data" c.data

/-- One measurement row's normalization-relevant fields (the cells the init
code reads from the measurement DataFrame: `gradeScale`, `maxScore`,
`minPercentScore2..4`).  An absent (NaN) configuration cell is `none`. -/
structure Meas where
  measurementID : Value
  gradeScale : Value
  maxScore : Option ℚ
  minPercentScore2 : Option ℚ
  minPercentScore3 : Option ℚ
  minPercentScore4 : Option ℚ

deriving DecidableEq

/-- Whether a measurement row matches `{'gradeScale': s}` under pandas
equality (null gradeScale matches nothing). -/
def isScale (s : String) (m : Meas) : Bool :=
  pandasEq m.gradeScale (Value.str s)

/-- Errors raised during the scale-conversion phase: the explicit
`ValueError` for a missing configuration cell (ceab.py lines 104-105 and
126-128), and the `ValueError` that `.astype(int)` raises when `pd.cut`
produced NaN for an out-of-bins value (lines 113-118 and 136-141). -/
inductive NormError where
  | config (mid : Value) : NormError
  | castNaN (mid : Value) : NormError

deriving DecidableEq

/-- numpy/pandas `.round()`: round half to even. -/
def roundHalfEven (q : ℚ) : ℤ :=
  if q - ⌊q⌋ < 1/2 then ⌊q⌋
  else if q - ⌊q⌋ > 1/2 then ⌊q⌋ + 1
  else if ⌊q⌋ % 2 = 0 then ⌊q⌋ else ⌊q⌋ + 1

/-- `pd.cut(v, bins=[0,b1,b2,b3,b4], labels=[1,2,3,4], include_lowest=True)`
for one value, assuming monotone bins: intervals [0,b1], (b1,b2], (b2,b3],
(b3,b4]; outside [0,b4] the result is NaN (`none`). -/
def pdCut4 (b1 b2 b3 b4 : ℚ) (v : ℚ) : Option ℕ :=
  if v < 0 then none
  else if v ≤ b1 then some 1
  else if v ≤ b2 then some 2
  else if v ≤ b3 then some 3
  else if v ≤ b4 then some 4
  else none

/-- `List.mapM` over `Option`, written out so its equations are easy to
reason about: `none` as soon as one element maps to `none`. -/
def mapOpt (f : α → Option β) : List α → Option (List β)
  | [] => some []
  | x :: xs =>
    match f x, mapOpt f xs with
    | some y, some ys => some (y :: ys)
    | _, _ => none

/-- Bin the rows of one measurement (ceab.py lines 113-118 / 136-141):
every data row whose `measurementID` equals the measurement's (pandas
equality) has its value replaced by
`pd.cut(value / maxScore * 100, bins, labels=[1,2,3,4]).astype(int)`.
If any binned value is NaN, `.astype(int)` raises (`none` overall). -/
def binMeasurement (mid : Value) (b1 b2 b3 b4 mx : ℚ) (rows : List DataRow) :
    Option (List DataRow) :=
  mapOpt (fun r =>
    if pandasEq r.measurementID mid then
      (pdCut4 b1 b2 b3 b4 (r.value / mx * 100)).map (fun s => { r with value := (s : ℚ) })
    else some r) rows

/-- Processing of one `'Raw Scores (Standard Bins)'` measurement
(ceab.py lines 100-118): raise `ValueError` if `maxScore` is NaN, otherwise
bin with breakpoints [0, 50, 60, 85, 100]. -/
def stdStep (m : Meas) (rows : List DataRow) : Except NormError (List DataRow) :=
  match m.maxScore with
  | none => .error (.config m.measurementID)
  | some mx =>
    match binMeasurement m.measurementID 50 60 85 100 mx rows with
    | none => .error (.castNaN m.measurementID)
    | some rs => .ok rs

/-- Processing of one `'Raw Scores (Custom Bins)'` measurement
(ceab.py lines 121-141): raise `ValueError` if any of `maxScore`,
`minPercentScore2..4` is NaN, otherwise bin with breakpoints
[0, minPercentScore2, minPercentScore3, minPercentScore4, 100]. -/
def customStep (m : Meas) (rows : List DataRow) : Except NormError (List DataRow) :=
  match m.maxScore, m.minPercentScore2, m.minPercentScore3, m.minPercentScore4 with
  | some mx, some p2, some p3, some p4 =>
    match binMeasurement m.measurementID p2 p3 p4 100 mx rows with
    | none => .error (.castNaN m.measurementID)
    | some rs => .ok rs
  | _, _, _, _ => .error (.config m.measurementID)

/-- Sequential processing of the measurements of one grade scale; the first
raised error aborts the load. -/
def foldSteps (step : Meas → List DataRow → Except NormError (List DataRow)) :
    List Meas → List DataRow → Except NormError (List DataRow)
  | [], rows => .ok rows
  | m :: ms, rows =>
    match step m rows with
    | .error e => .error e
    | .ok rows' => foldSteps step ms rows'

/-- The `'CEAB (1-4)'` rounding pass (ceab.py lines 95-97): values of data
rows belonging to a measurement with that scale are rounded to the nearest
integer. -/
def roundPhase (ms : List Meas) (rows : List DataRow) : List DataRow :=
  rows.map (fun r =>
    if (ms.filter (isScale "CEAB (1-4)")).any
        (fun m => pandasEq r.measurementID m.measurementID) then
      { r with value := (roundHalfEven r.value : ℚ) }
    else r)

/-- The whole scale-conversion phase (ceab.py lines 94-141): the rounding
pass, then every `'Raw Scores (Standard Bins)'` measurement in table order,
then every `'Raw Scores (Custom Bins)'` measurement in table order.
Measurements with any other gradeScale are left untouched. -/
def normalizeData (ms : List Meas) (rows : List DataRow) :
    Except NormError (List DataRow) :=
  match foldSteps stdStep (ms.filter (isScale "Raw Scores (Standard Bins)"))
      (roundPhase ms rows) with
  | .error e => .error e
  | .ok rows' => foldSteps customStep (ms.filter (isScale "Raw Scores (Custom Bins)")) rows'

/-- One warning of the post-normalization range check (ceab.py lines
144-153). -/
structure RangeWarning where
  dataID : ℕ
  measurementID : Value
  value : ℚ

deriving DecidableEq

/-- The [1,4] range audit, reached only when conversion succeeded. -/
def rangeWarnings (rows : List DataRow) : List RangeWarning :=
  (rows.filter (fun r => decide (r.value < 1 ∨ r.value > 4))).map
    (fun r => ⟨r.dataID, r.measurementID, r.value⟩)

/-- Scale conversion followed by the range audit: if conversion raises, the
load aborts and no range warning is ever produced. -/
def normalizeAndAudit (ms : List Meas) (rows : List DataRow) :
    Except NormError (List DataRow × List RangeWarning) :=
  match normalizeData ms rows with
  | .error e => .error e
  | .ok rows' => .ok (rows', rangeWarnings rows')

/-- The `criteria` argument of `get_row_IDs_matching_criteria`: either a
Python object that is not a `dict`, or a `dict` as an ordered association
list. -/
inductive Criteria where
  | notDict : Criteria
  | dict : List (String × Value) → Criteria

/-- Errors of `get_row_IDs_matching_criteria` (ceab.py lines 271-303):
`TypeError` for a non-dict criteria argument, the failure of
`getattr(self, table_name)` for a name that is not one of the four table
properties, the re-raised `KeyError` for an unknown criteria column, and the
uncaught `KeyError` when the final `df[f'{table_name}ID']` column is
absent. -/
inductive QueryError where
  | typeErrorCriteria : QueryError
  | attrError (name : String) : QueryError
  | invalidKey (k : String) : QueryError
  | keyError (k : String) : QueryError

deriving DecidableEq

/-- `getattr(self, table_name)` restricted to names that yield a DataFrame:
exactly the four table properties.  Any other attribute name either raises
`AttributeError` or yields a non-DataFrame object on which every subsequent
subscript operation of the function raises, so all of those names are
collapsed into `none` (an error) here. -/
def getTable (c : CEAB) (name : String) : Option Table :=
  if name = "instructor" then some c.instructor
  else if name = "course" then some c.course
  else if name = "measurement" then some c.measurement
  else if name = "data" then some c.data
  else none

/-- The criteria loop (ceab.py lines 296-300): successively filter the rows,
re-raising a `KeyError` for a criteria key that is not a column. -/
def applyCriteria (cols : List String) (rows : List (List Value)) :
    List (String × Value) → Except QueryError (List (List Value))
  | [] => .ok rows
  | (k, v) :: rest =>
    if k ∈ cols then
      applyCriteria cols (rows.filter (fun r => pandasEq (getCellD cols r k) v)) rest
    else .error (.invalidKey k)

/-- `CEAB.get_row_IDs_matching_criteria` (ceab.py lines 271-303).  The
`table_name` is modelled as a string (a non-string argument raises
`TypeError` even earlier); a non-dict criteria raises `TypeError`; then the
table is fetched, the criteria applied, and the `f'{table_name}ID'` column
returned as a list. -/
def get_row_IDs_matching_criteria (c : CEAB) (tableName : String)
    (criteria : Criteria) : Except QueryError (List Value) :=
  match criteria with
  | .notDict => .error .typeErrorCriteria
  | .dict crits =>
    match getTable c tableName with
    | none => .error (.attrError tableName)
    | some t =>
      match applyCriteria t.cols t.rows crits with
      | .error e => .error e
      | .ok rows =>
        if (tableName ++ "ID") ∈ t.cols then
          .ok (rows.map (fun r => getCellD t.cols r (tableName ++ "ID")))
        else .error (.keyError (tableName ++ "ID"))

/-- `read_ceab_data(path, pattern)` with a pattern (ceab.py lines 319-333):
walk the file list in discovery order, load the first file whose relative
path matches, and `+=` (combine) each further matching file.  File reading
and `os.walk`/`re.match` are external collaborators; each discovered file is
given here as its relative path paired with the `CEAB` object that loading
it would produce, and the pattern as a predicate on relative paths.
`ceab` starts as Python `None` and is returned unchanged if nothing
matched. -/
def readCeabDataFold (p : String → Bool) (acc : Option CEAB) :
    List (String × CEAB) → Except CombineError (Option CEAB)
  | [] => .ok acc
  | (path, c) :: rest =>
    if p path then
      match acc with
      | none => readCeabDataFold p (some c) rest
      | some a =>
        match combine a c with
        | .error e => .error e
        | .ok ab => readCeabDataFold p (some ab) rest
    else readCeabDataFold p acc rest

/-- Entry point of the batch branch (`pattern` given). -/
def readCeabDataPat (p : String → Bool) (files : List (String × CEAB)) :
    Except CombineError (Option CEAB) :=
  readCeabDataFold p none files

/-- A dataset whose course table carries two rows with the same courseID;
every table has at least one column, so combine does not raise. -/
def c5A : CEAB :=
  ⟨⟨["instructorID"], []⟩,
   ⟨["courseID", "instructorID"], [[Value.str "C1", Value.num 1], [Value.str "C1", Value.num 2]]⟩,
   ⟨["measurementID"], []⟩, ⟨["dataID"], []⟩⟩

/-- A dataset with the same schema and no rows. -/
def c5B : CEAB :=
  ⟨⟨["instructorID"], []⟩, ⟨["courseID", "instructorID"], []⟩,
   ⟨["measurementID"], []⟩, ⟨["dataID"], []⟩⟩

/-- A one-course dataset used to instantiate the amended C5 theorem. -/
def c5Wa : CEAB :=
  ⟨⟨["instructorID"], []⟩,
   ⟨["courseID", "instructorID"], [[Value.str "C1", Value.num 1]]⟩,
   ⟨["measurementID"], []⟩, ⟨["dataID"], []⟩⟩

/-- A two-course dataset sharing courseID C1 with `c5Wa`. -/
def c5Wb : CEAB :=
  ⟨⟨["instructorID"], []⟩,
   ⟨["courseID", "instructorID"], [[Value.str "C1", Value.num 7], [Value.str "C2", Value.num 2]]⟩,
   ⟨["measurementID"], []⟩, ⟨["dataID"], []⟩⟩

/-- The standard-bins measurement of claim C1: maxScore 100. -/
def c1Meas : Meas :=
  ⟨Value.str "M1", Value.str "Raw Scores (Standard Bins)", some 100, none, none, none⟩

/-- One data row per boundary raw value 0, 50, 60, 85, 100 of claim C1. -/
def c1Rows : List DataRow :=
  [⟨0, Value.str "S1", Value.str "M1", 0⟩, ⟨1, Value.str "S1", Value.str "M1", 50⟩,
   ⟨2, Value.str "S1", Value.str "M1", 60⟩, ⟨3, Value.str "S1", Value.str "M1", 85⟩,
   ⟨4, Value.str "S1", Value.str "M1", 100⟩]

/-- A wide Data sheet with one student and three measurement columns whose
middle cell is the score 0 (meaning "not assessed"). -/
def c2Wide : WideData :=
  ⟨[Value.str "S1"], [("M1", [some 1]), ("M2", [some 0]), ("M3", [some 2])]⟩

/-- Whether a measurement's scale conversion would raise the explicit
missing-configuration `ValueError`: a standard-bins measurement with NaN
maxScore, or a custom-bins measurement with a NaN in any of the four
required configuration cells. -/
def badConfig (m : Meas) : Prop :=
  (isScale "Raw Scores (Standard Bins)" m = true ∧ m.maxScore = none) ∨
    (isScale "Raw Scores (Custom Bins)" m = true ∧
      (m.maxScore = none ∨ m.minPercentScore2 = none ∨ m.minPercentScore3 = none ∨
        m.minPercentScore4 = none))

/-- A standard-bins measurement with maxScore 10. -/
def c9Meas : Meas :=
  ⟨Value.str "M2", Value.str "Raw Scores (Standard Bins)", some 10, none, none, none⟩

/-- A data row for that measurement with raw value 15, above maxScore. -/
def c9Row : DataRow := ⟨0, Value.str "S1", Value.str "M2", 15⟩

/-- A dataset with a null firstName in its instructor table and a loaded
(empty) data table. -/
def c7CEAB : CEAB :=
  ⟨⟨["instructorID", "firstName", "lastName"], [[Value.num 1, Value.null, Value.str "X"]]⟩,
   ⟨["courseID"], []⟩, ⟨["measurementID"], []⟩, dataTableOf ⟨[], []⟩⟩

/-- A three-instructor dataset for instantiating the query theorem. -/
def c8CEAB : CEAB :=
  ⟨⟨["instructorID", "firstName", "lastName"],
    [[Value.num 1, Value.str "A", Value.str "B"], [Value.num 2, Value.str "A", Value.str "C"],
     [Value.num 3, Value.str "Z", Value.str "D"]]⟩,
   ⟨["courseID"], []⟩, ⟨["measurementID"], []⟩, ⟨["dataID"], []⟩⟩

theorem dedupFirstAux_nodup (seen : List (Option Value)) :
    ∀ ys : List (List Value), (rowKeys ys).Nodup →
      dedupFirstAux seen ys = ys.filter (fun y => decide (rowKey y ∉ seen)) := by
  intro ys
  induction ys generalizing seen with
  | nil => intro _; rfl
  | cons y ys ih =>
    intro h
    have hnd : (rowKeys ys).Nodup := (List.nodup_cons.mp h).2
    have hkey : rowKey y ∉ rowKeys ys := (List.nodup_cons.mp h).1
    by_cases hy : rowKey y ∈ seen
    · have hfilter : (y :: ys).filter (fun z => decide (rowKey z ∉ seen)) =
          ys.filter (fun z => decide (rowKey z ∉ seen)) := by
        simp [List.filter_cons, hy]
      simp only [dedupFirstAux, if_pos hy, hfilter]
      exact ih seen hnd
    · have hfilter : (y :: ys).filter (fun z => decide (rowKey z ∉ seen)) =
          y :: ys.filter (fun z => decide (rowKey z ∉ seen)) := by
        simp [List.filter_cons, hy]
      simp only [dedupFirstAux, if_neg hy, hfilter]
      rw [ih (rowKey y :: seen) hnd]
      congr 1
      apply List.filter_congr
      intro a ha
      have hne : rowKey a ≠ rowKey y := by
        intro hcontra
        exact hkey (hcontra ▸ List.mem_map_of_mem rowKey ha)
      apply decide_eq_decide.mpr
      simp [List.mem_cons, hne]

theorem dedupFirstAux_append (xs ys : List (List Value)) :
    ∀ seen : List (Option Value), (rowKeys xs).Nodup → (rowKeys ys).Nodup →
      (∀ x ∈ xs, rowKey x ∉ seen) →
      dedupFirstAux seen (xs ++ ys) =
        xs ++ ys.filter (fun y => decide (rowKey y ∉ seen ∧ rowKey y ∉ rowKeys xs)) := by
  induction xs with
  | nil =>
    intro seen _ hys _
    simp only [List.nil_append]
    rw [dedupFirstAux_nodup seen ys hys]
    apply List.filter_congr
    intro a _
    simp [rowKeys]
  | cons x xs ih =>
    intro seen hxs hys hseen
    have hx : rowKey x ∉ seen := hseen x (List.mem_cons_self x xs)
    have hxnd : (rowKeys xs).Nodup := (List.nodup_cons.mp hxs).2
    have hxkey : rowKey x ∉ rowKeys xs := (List.nodup_cons.mp hxs).1
    simp only [List.cons_append, dedupFirstAux, if_neg hx, List.append_eq]
    rw [ih (rowKey x :: seen) hxnd hys ?seenOK]
    case seenOK =>
      intro a ha
      simp only [List.mem_cons]
      push_neg
      constructor
      · intro hcontra
        exact hxkey (hcontra ▸ List.mem_map_of_mem rowKey ha)
      · exact hseen a (List.mem_cons_of_mem x ha)
    congr 2
    apply List.filter_congr
    intro a _
    apply decide_eq_decide.mpr
    constructor
    · rintro ⟨h1, h2⟩
      refine ⟨fun hmem => h1 (List.mem_cons_of_mem _ hmem), ?_⟩
      simp only [rowKeys, List.map_cons, List.mem_cons]
      push_neg
      refine ⟨?_, h2⟩
      intro hcontra
      exact h1 (hcontra ▸ List.mem_cons_self _ _)
    · rintro ⟨h1, h2⟩
      simp only [rowKeys, List.map_cons, List.mem_cons] at h2
      push_neg at h2
      refine ⟨?_, h2.2⟩
      simp only [List.mem_cons]
      push_neg
      exact ⟨h2.1, h1⟩

theorem dedupFirst_append (xs ys : List (List Value))
    (hxs : (rowKeys xs).Nodup) (hys : (rowKeys ys).Nodup) :
    dedupFirst (xs ++ ys) =
      xs ++ ys.filter (fun y => decide (rowKey y ∉ rowKeys xs)) := by
  unfold dedupFirst
  rw [dedupFirstAux_append xs ys [] hxs hys (by intro x _; simp)]
  congr 1
  apply List.filter_congr
  intro a _
  simp

theorem dedupFirst_self (xs : List (List Value)) (hxs : (rowKeys xs).Nodup) :
    dedupFirst xs = xs := by
  have := dedupFirst_append xs [] hxs (by simp [rowKeys])
  simpa using this

theorem filterIndexed_ge (l : List (Value × String × Option ℚ)) :
    ∀ i : ℕ, ∀ r ∈ filterIndexed i l, i ≤ r.dataID := by
  induction l with
  | nil => intro i r hr; simp [filterIndexed] at hr
  | cons x rest ih =>
    intro i r hr
    obtain ⟨s, mid, v⟩ := x
    match v with
    | none =>
      simp only [filterIndexed] at hr
      exact Nat.le_of_succ_le (ih (i + 1) r hr)
    | some q =>
      simp only [filterIndexed] at hr
      by_cases hdrop : s = Value.null ∨ q = 0
      · rw [if_pos hdrop] at hr
        exact Nat.le_of_succ_le (ih (i + 1) r hr)
      · rw [if_neg hdrop] at hr
        rcases List.mem_cons.mp hr with h | h
        · subst h; exact Nat.le_refl i
        · exact Nat.le_of_succ_le (ih (i + 1) r h)

theorem filterIndexed_pairwise_lt (l : List (Value × String × Option ℚ)) :
    ∀ i : ℕ, (filterIndexed i l).Pairwise (fun a b => a.dataID < b.dataID) := by
  induction l with
  | nil => intro i; simp [filterIndexed]
  | cons x rest ih =>
    intro i
    obtain ⟨s, mid, v⟩ := x
    match v with
    | none => simpa only [filterIndexed] using ih (i + 1)
    | some q =>
      simp only [filterIndexed]
      by_cases hdrop : s = Value.null ∨ q = 0
      · rw [if_pos hdrop]; exact ih (i + 1)
      · rw [if_neg hdrop]
        refine List.Pairwise.cons ?_ (ih (i + 1))
        intro b hb
        exact Nat.lt_of_succ_le (filterIndexed_ge rest (i + 1) b hb)

theorem filterIndexed_mem_get (l : List (Value × String × Option ℚ)) :
    ∀ i : ℕ, ∀ r ∈ filterIndexed i l,
      ∃ j m, r.dataID = i + j ∧ l.get? j = some (r.studentID, m, some r.value) ∧
        r.measurementID = Value.str m ∧ r.studentID ≠ Value.null ∧ r.value ≠ 0 := by
  induction l with
  | nil => intro i r hr; simp [filterIndexed] at hr
  | cons x rest ih =>
    intro i r hr
    obtain ⟨s, mid, v⟩ := x
    match v with
    | none =>
      simp only [filterIndexed] at hr
      obtain ⟨j, m, h1, h2, h3, h4, h5⟩ := ih (i + 1) r hr
      exact ⟨j + 1, m, by omega, by simpa using h2, h3, h4, h5⟩
    | some q =>
      simp only [filterIndexed] at hr
      by_cases hdrop : s = Value.null ∨ q = 0
      · rw [if_pos hdrop] at hr
        obtain ⟨j, m, h1, h2, h3, h4, h5⟩ := ih (i + 1) r hr
        exact ⟨j + 1, m, by omega, by simpa using h2, h3, h4, h5⟩
      · rw [if_neg hdrop] at hr
        push_neg at hdrop
        rcases List.mem_cons.mp hr with h | h
        · subst h
          exact ⟨0, mid, by simp, rfl, rfl, hdrop.1, hdrop.2⟩
        · obtain ⟨j, m, h1, h2, h3, h4, h5⟩ := ih (i + 1) r h
          exact ⟨j + 1, m, by omega, by simpa using h2, h3, h4, h5⟩

theorem mem_nullAuditTable (w : NullWarning) (name : String) (t : Table) :
    w ∈ nullAuditTable name t ↔
      ∃ c ∈ noNanColumns name, ∃ r ∈ t.rows,
        getCellD t.cols r c = Value.null ∧
        w = ⟨name, c, getCellD t.cols r (name ++ "ID")⟩ := by
  unfold nullAuditTable
  simp only [List.mem_flatMap, List.mem_map, List.mem_filter, decide_eq_true_eq]
  constructor
  · rintro ⟨c, hc, r, ⟨hr, hnull⟩, hw⟩
    exact ⟨c, hc, r, hr, hnull, hw.symm⟩
  · rintro ⟨c, hc, r, hr, hnull, hw⟩
    exact ⟨c, hc, r, ⟨hr, hnull⟩, hw.symm⟩

/-- Rows built by the loader contain no null cell: `dataID` is a number,
`studentID` survived `dropna`, `measurementID` is a column-name string and
`value` a number. -/
theorem dataTableOf_no_null (w : WideData) :
    ∀ r ∈ (dataTableOf w).rows, ∀ v ∈ r, v ≠ Value.null := by
  intro r hr v hv
  simp only [dataTableOf, List.mem_map] at hr
  obtain ⟨d, hd, hcells⟩ := hr
  obtain ⟨j, m, _, _, _, hstud, _⟩ := filterIndexed_mem_get (meltData w) 0 d hd
  subst hcells
  simp only [dataRowCells, List.mem_cons, List.not_mem_nil, or_false] at hv
  rcases hv with h | h | h | h <;> subst h
  · exact fun hc => Value.noConfusion hc
  · exact hstud
  · obtain ⟨_, _, _, _, hmid, _, _⟩ := filterIndexed_mem_get (meltData w) 0 d hd
    rw [hmid]
    exact fun hc => Value.noConfusion hc
  · exact fun hc => Value.noConfusion hc

theorem mapOpt_eq_none_of_mem (f : α → Option β) (l : List α) (a : α)
    (ha : a ∈ l) (hf : f a = none) : mapOpt f l = none := by
  induction l with
  | nil => simp at ha
  | cons x xs ih =>
    rcases List.mem_cons.mp ha with h | h
    · subst h
      simp only [mapOpt, hf]
    · simp only [mapOpt, ih h]
      match f x with
      | none => rfl
      | some y => rfl

theorem foldSteps_error_of_mem (step : Meas → List DataRow → Except NormError (List DataRow))
    (ms : List Meas) (m : Meas) (hm : m ∈ ms)
    (hail : ∀ rows, ∃ e, step m rows = .error e) :
    ∀ rows, ∃ e, foldSteps step ms rows = .error e := by
  induction ms with
  | nil => simp at hm
  | cons m0 ms ih =>
    intro rows
    rcases List.mem_cons.mp hm with h | h
    · subst h
      obtain ⟨e, he⟩ := hail rows
      exact ⟨e, by simp only [foldSteps, he]⟩
    · match h0 : step m0 rows with
      | .error e => exact ⟨e, by simp only [foldSteps, h0]⟩
      | .ok rows' =>
        obtain ⟨e, he⟩ := ih h rows'
        exact ⟨e, by simp only [foldSteps, h0, he]⟩

theorem foldSteps_no_config (step : Meas → List DataRow → Except NormError (List DataRow))
    (ms : List Meas)
    (hstep : ∀ m ∈ ms, ∀ rows mid, step m rows ≠ .error (.config mid)) :
    ∀ rows mid, foldSteps step ms rows ≠ .error (.config mid) := by
  induction ms with
  | nil => intro rows mid h; simp [foldSteps] at h
  | cons m0 ms ih =>
    intro rows mid h
    simp only [foldSteps] at h
    match h0 : step m0 rows with
    | .error e =>
      rw [h0] at h
      cases h
      exact hstep m0 (List.mem_cons_self m0 ms) rows mid h0
    | .ok rows' =>
      rw [h0] at h
      exact ih (fun m hm => hstep m (List.mem_cons_of_mem m0 hm)) rows' mid h

theorem applyCriteria_ok (cols : List String) (crits : List (String × Value))
    (hvalid : ∀ kv ∈ crits, kv.1 ∈ cols) :
    ∀ rows, applyCriteria cols rows crits =
      .ok (rows.filter (fun r => crits.all (fun kv => pandasEq (getCellD cols r kv.1) kv.2))) := by
  induction crits with
  | nil => intro rows; simp [applyCriteria, List.all_nil, List.filter_true]
  | cons kv rest ih =>
    intro rows
    obtain ⟨k, v⟩ := kv
    have hk : k ∈ cols := hvalid (k, v) (List.mem_cons_self _ _)
    simp only [applyCriteria, if_pos hk]
    rw [ih (fun kv hkv => hvalid kv (List.mem_cons_of_mem _ hkv))]
    rw [List.filter_filter]
    congr 1
    apply List.filter_congr
    intro r _
    simp only [List.all_cons]
    rw [Bool.and_comm]

theorem applyCriteria_error_of_bad_key (cols : List String)
    (crits : List (String × Value)) (k : String) (v : Value)
    (hmem : (k, v) ∈ crits) (hbad : k ∉ cols) :
    ∀ rows, ∃ e, applyCriteria cols rows crits = .error e := by
  induction crits with
  | nil => simp at hmem
  | cons kv rest ih =>
    intro rows
    obtain ⟨k0, v0⟩ := kv
    by_cases hk0 : k0 ∈ cols
    · simp only [applyCriteria, if_pos hk0]
      rcases List.mem_cons.mp hmem with h | h
      · exact absurd (by injection h with h1 _; exact h1 ▸ hk0) hbad
      · exact ih h _
    · exact ⟨.invalidKey k0, by simp only [applyCriteria, if_neg hk0]⟩

theorem combineTable_ok (a b : Table) (hc : a.cols ≠ [])
    (ha : (rowKeys a.rows).Nodup) (hb : (rowKeys b.rows).Nodup) :
    combineTable a b =
      .ok ⟨a.cols, a.rows ++ b.rows.filter (fun r => decide (rowKey r ∉ rowKeys a.rows))⟩ := by
  obtain ⟨cols, rowsa⟩ := a
  cases cols with
  | nil => exact absurd rfl hc
  | cons c cs =>
    have hconcat : concatTables ⟨c :: cs, rowsa⟩ b = ⟨c :: cs, rowsa ++ b.rows⟩ := by
      unfold concatTables
      simp
    unfold combineTable
    rw [hconcat]
    show (Except.ok ⟨c :: cs, dedupFirst (rowsa ++ b.rows)⟩ : Except CombineError Table) =
      Except.ok ⟨c :: cs, rowsa ++ b.rows.filter (fun r => decide (rowKey r ∉ rowKeys rowsa))⟩
    rw [dedupFirst_append rowsa b.rows ha hb]

/-- Claim C10: combining two no-source datasets (all tables empty DataFrames
without columns) raises rather than returning the empty dataset, because
`drop_duplicates` is keyed on `columns[0]` of the concatenated table and an
empty DataFrame has no first column. -/
theorem c10_combine_empty_raises :
    combine emptyCEAB emptyCEAB = .error CombineError.noColumns := rfl

/-- Counterexample to claim C6: for X the empty (no-source) dataset itself,
`combine(X, CEAB())` raises an `IndexError` instead of returning a dataset
with X's rows, so the empty dataset is not an identity element on all
datasets. -/
theorem c6_counterexample :
    combine emptyCEAB emptyCEAB ≠ .ok emptyCEAB ∧
      combine emptyCEAB emptyCEAB = .error CombineError.noColumns :=
  ⟨fun h => Except.noConfusion h, rfl⟩

/-- Claim C6 (amended): for every dataset X whose four tables each have at
least one column and pairwise-distinct primary-key values, combining X with
the empty (no-source) dataset returns X itself (same rows, same order); on
such datasets the empty dataset is a right identity for combine. -/
theorem c6_amended (X : CEAB)
    (h1 : X.instructor.cols ≠ []) (h2 : X.course.cols ≠ [])
    (h3 : X.measurement.cols ≠ []) (h4 : X.data.cols ≠ [])
    (k1 : (rowKeys X.instructor.rows).Nodup) (k2 : (rowKeys X.course.rows).Nodup)
    (k3 : (rowKeys X.measurement.rows).Nodup) (k4 : (rowKeys X.data.rows).Nodup) :
    combine X emptyCEAB = .ok X := by
  have he : (rowKeys (emptyTable).rows).Nodup := List.nodup_nil
  have step : ∀ t : Table, t.cols ≠ [] → (rowKeys t.rows).Nodup →
      combineTable t emptyTable = .ok t := by
    intro t hcol hnd
    rw [combineTable_ok t emptyTable hcol hnd he]
    show Except.ok ⟨t.cols, t.rows ++ []⟩ = Except.ok t
    rw [List.append_nil]
  unfold combine emptyCEAB
  rw [step X.instructor h1 k1, step X.course h2 k2, step X.measurement h3 k3,
    step X.data h4 k4]

theorem c6_amended_witness :
    combine ⟨⟨["instructorID"], [[Value.num 1]]⟩, ⟨["courseID"], [[Value.str "C1"]]⟩,
        ⟨["measurementID"], []⟩, ⟨["dataID"], []⟩⟩ emptyCEAB =
      .ok ⟨⟨["instructorID"], [[Value.num 1]]⟩, ⟨["courseID"], [[Value.str "C1"]]⟩,
        ⟨["measurementID"], []⟩, ⟨["dataID"], []⟩⟩ :=
  c6_amended _ (by decide) (by decide) (by decide) (by decide)
    (by decide) (by decide) (by decide) (by decide)

/-- Counterexample to claim C5: `drop_duplicates` also deduplicates WITHIN
A, so when A itself holds two Course rows with the same courseID, the
result is not "A's rows followed by B's non-colliding rows" — A's second
row is silently dropped as well. -/
theorem c5_counterexample :
    combine c5A c5B =
      .ok ⟨⟨["instructorID"], []⟩,
        ⟨["courseID", "instructorID"], [[Value.str "C1", Value.num 1]]⟩,
        ⟨["measurementID"], []⟩, ⟨["dataID"], []⟩⟩ ∧
    [[Value.str "C1", Value.num 1]] ≠
      c5A.course.rows ++
        c5B.course.rows.filter (fun r => decide (rowKey r ∉ rowKeys c5A.course.rows)) := by
  constructor
  · rfl
  · decide

/-- Claim C5 (amended): for datasets A and B whose tables each have at least
one column and whose rows have pairwise-distinct primary-key values within
each input table, combine produces, for each of the four tables, A's rows in
original order followed by those rows of B whose key does not occur in A, in
their original order; on a key collision A's row survives.  (In general the
first occurrence of each key in the concatenation A-then-B survives, so rows
repeating a key within one input are dropped too.) -/
theorem c5_amended (a b : CEAB)
    (h1 : a.instructor.cols ≠ []) (h2 : a.course.cols ≠ [])
    (h3 : a.measurement.cols ≠ []) (h4 : a.data.cols ≠ [])
    (ka1 : (rowKeys a.instructor.rows).Nodup) (ka2 : (rowKeys a.course.rows).Nodup)
    (ka3 : (rowKeys a.measurement.rows).Nodup) (ka4 : (rowKeys a.data.rows).Nodup)
    (kb1 : (rowKeys b.instructor.rows).Nodup) (kb2 : (rowKeys b.course.rows).Nodup)
    (kb3 : (rowKeys b.measurement.rows).Nodup) (kb4 : (rowKeys b.data.rows).Nodup) :
    combine a b = .ok
      ⟨⟨a.instructor.cols, a.instructor.rows ++
          b.instructor.rows.filter (fun r => decide (rowKey r ∉ rowKeys a.instructor.rows))⟩,
       ⟨a.course.cols, a.course.rows ++
          b.course.rows.filter (fun r => decide (rowKey r ∉ rowKeys a.course.rows))⟩,
       ⟨a.measurement.cols, a.measurement.rows ++
          b.measurement.rows.filter (fun r => decide (rowKey r ∉ rowKeys a.measurement.rows))⟩,
       ⟨a.data.cols, a.data.rows ++
          b.data.rows.filter (fun r => decide (rowKey r ∉ rowKeys a.data.rows))⟩⟩ := by
  unfold combine
  rw [combineTable_ok a.instructor b.instructor h1 ka1 kb1,
    combineTable_ok a.course b.course h2 ka2 kb2,
    combineTable_ok a.measurement b.measurement h3 ka3 kb3,
    combineTable_ok a.data b.data h4 ka4 kb4]

theorem c5_amended_witness :
    combine c5Wa c5Wb =
      .ok ⟨⟨["instructorID"], []⟩,
        ⟨["courseID", "instructorID"], [[Value.str "C1", Value.num 1], [Value.str "C2", Value.num 2]]⟩,
        ⟨["measurementID"], []⟩, ⟨["dataID"], []⟩⟩ := by
  have h := c5_amended c5Wa c5Wb (by decide) (by decide) (by decide) (by decide)
    (by decide) (by decide) (by decide) (by decide)
    (by decide) (by decide) (by decide) (by decide)
  exact h.trans rfl

/-- Counterexample to claim C1: with `pd.cut`'s default right-closed
intervals, the boundary percentage 50 falls into the FIRST bin [0,50], so a
raw value of exactly 50 (maxScore 100) normalizes to 1, not 2 as claimed. -/
theorem c1_counterexample :
    stdStep c1Meas [⟨1, Value.str "S1", Value.str "M1", 50⟩] =
      .ok [⟨1, Value.str "S1", Value.str "M1", 1⟩] ∧
    (1 : ℚ) ≠ 2 := by
  constructor
  · norm_num [stdStep, c1Meas, binMeasurement, mapOpt, pandasEq, pdCut4]
  · norm_num

/-- Claim C1 (amended): with gradeScale `'Raw Scores (Standard Bins)'` and
maxScore 100, raw values of exactly 0, 50, 60, 85, 100 normalize to scores
1, 1, 2, 3, 4 respectively: every internal boundary belongs to the LOWER
bin, so 50 normalizes to 1 (50 → bin [0,50]), while 60, 85 and 100 close
the bins (50,60], (60,85] and (85,100]. -/
theorem c1_amended :
    stdStep c1Meas c1Rows =
      .ok [⟨0, Value.str "S1", Value.str "M1", 1⟩, ⟨1, Value.str "S1", Value.str "M1", 1⟩,
        ⟨2, Value.str "S1", Value.str "M1", 2⟩, ⟨3, Value.str "S1", Value.str "M1", 3⟩,
        ⟨4, Value.str "S1", Value.str "M1", 4⟩] := by
  norm_num [stdStep, c1Meas, c1Rows, binMeasurement, mapOpt, pandasEq, pdCut4]

theorem readCeabDataFold_no_match (p : String → Bool) :
    ∀ files : List (String × CEAB), (∀ f ∈ files, p f.1 = false) →
      ∀ acc, readCeabDataFold p acc files = .ok acc := by
  intro files
  induction files with
  | nil => intro _ acc; rfl
  | cons f rest ih =>
    intro h acc
    obtain ⟨path, c⟩ := f
    have hp : p path = false := h (path, c) (List.mem_cons_self _ _)
    simp only [readCeabDataFold, hp, Bool.false_eq_true, if_false]
    exact ih (fun f hf => h f (List.mem_cons_of_mem _ hf)) acc

/-- Claim C3: when no discovered file path matches the pattern, the batch
branch of `read_ceab_data` returns the initial Python `None` (the `ceab`
variable is never assigned), NOT an empty-tables Dataset as the spec
requires — the function's own `-> CEAB` annotation and docstring promise a
CEAB object. -/
theorem c3_no_match_returns_none (p : String → Bool) (files : List (String × CEAB))
    (h : ∀ f ∈ files, p f.1 = false) :
    readCeabDataPat p files = .ok none ∧
      (Except.ok none : Except CombineError (Option CEAB)) ≠ .ok (some emptyCEAB) := by
  refine ⟨readCeabDataFold_no_match p files h none, ?_⟩
  intro hcontra
  injection hcontra with h2
  exact Option.noConfusion h2

theorem c3_witness :
    readCeabDataPat (fun _ => false)
        [("a/file1.xlsx", emptyCEAB), ("b/file2.xlsx", emptyCEAB)] = .ok none ∧
      (Except.ok none : Except CombineError (Option CEAB)) ≠ .ok (some emptyCEAB) :=
  c3_no_match_returns_none (fun _ => false)
    [("a/file1.xlsx", emptyCEAB), ("b/file2.xlsx", emptyCEAB)] (fun _ _ => rfl)

/-- Counterexample to claim C2: `dataID` is the pandas index label preserved
through `dropna()` and the zero filter, i.e. the row's position in the
melted table BEFORE filtering.  Dropping the middle melted row (value 0)
leaves dataIDs [0, 2] for the two surviving rows — not the contiguous
0-based positions [0, 1]. -/
theorem c2_counterexample :
    (buildDataRows c2Wide).map (fun r => r.dataID) = [0, 2] ∧
      [0, 2] ≠ List.range (buildDataRows c2Wide).length := by
  constructor
  · decide
  · decide

/-- Claim C2 (amended): `dataID` equals the row's 0-based position in the
reshaped (melted) table BEFORE the null/zero filtering; consequently the
surviving rows' dataIDs are strictly increasing (no reuse) but need not be
contiguous — a gap remains wherever a null or zero row was dropped.  Each
surviving row matches the melted entry at index `dataID` (same student,
same measurement column, same value, which was neither null nor zero). -/
theorem c2_amended (w : WideData) :
    (buildDataRows w).Pairwise (fun a b => a.dataID < b.dataID) ∧
    ∀ r ∈ buildDataRows w, ∃ m,
      (meltData w).get? r.dataID = some (r.studentID, m, some r.value) ∧
      r.measurementID = Value.str m ∧ r.studentID ≠ Value.null ∧ r.value ≠ 0 := by
  constructor
  · exact filterIndexed_pairwise_lt (meltData w) 0
  · intro r hr
    obtain ⟨j, m, h1, h2, h3, h4, h5⟩ := filterIndexed_mem_get (meltData w) 0 r hr
    refine ⟨m, ?_, h3, h4, h5⟩
    rw [h1, Nat.zero_add]
    exact h2

theorem c2_amended_witness :
    (buildDataRows c2Wide).Pairwise (fun a b => a.dataID < b.dataID) ∧
      (∃ m, (meltData c2Wide).get? 2 =
          some (Value.str "S1", m, some 2) ∧
        (Value.str "M3" : Value) = Value.str m ∧ (Value.str "S1" : Value) ≠ Value.null ∧
        (2 : ℚ) ≠ 0) :=
  ⟨(c2_amended c2Wide).1,
    (c2_amended c2Wide).2 ⟨2, Value.str "S1", Value.str "M3", 2⟩ (by decide)⟩

theorem customStep_config_of_missing (m : Meas)
    (h : m.maxScore = none ∨ m.minPercentScore2 = none ∨ m.minPercentScore3 = none ∨
      m.minPercentScore4 = none) :
    ∀ rows, customStep m rows = .error (.config m.measurementID) := by
  intro rows
  unfold customStep
  rcases hmx : m.maxScore with _ | mx <;> rcases hp2 : m.minPercentScore2 with _ | p2 <;>
    rcases hp3 : m.minPercentScore3 with _ | p3 <;> rcases hp4 : m.minPercentScore4 with _ | p4 <;>
    simp_all

/-- Claim C4: the scale conversion raises the explicit missing-configuration
error exactly for standard-bins measurements with NaN maxScore and
custom-bins measurements with a NaN among maxScore/minPercentScore2..4:
(i) the standard step raises the config error iff maxScore is missing,
(ii) the custom step raises it iff one of the four cells is missing,
(iii) a dataset containing any such measurement always fails to load, and
(iv) when no measurement is missing configuration, the load never raises a
config error (it proceeds, apart from data-dependent cast failures). -/
theorem c4_config_errors (m : Meas) (rows : List DataRow) (ms : List Meas)
    (rows2 : List DataRow) :
    (stdStep m rows = .error (.config m.measurementID) ↔ m.maxScore = none) ∧
    (customStep m rows = .error (.config m.measurementID) ↔
      (m.maxScore = none ∨ m.minPercentScore2 = none ∨ m.minPercentScore3 = none ∨
        m.minPercentScore4 = none)) ∧
    ((∃ mbad ∈ ms, badConfig mbad) → ∃ e, normalizeData ms rows2 = .error e) ∧
    ((∀ m' ∈ ms, ¬ badConfig m') →
      ∀ mid, normalizeData ms rows2 ≠ .error (.config mid)) := by
  refine ⟨?_, ?_, ?_, ?_⟩
  · cases hmx : m.maxScore with
    | none => simp [stdStep, hmx]
    | some mx =>
      simp only [stdStep, hmx]
      constructor
      · intro h
        match hb : binMeasurement m.measurementID 50 60 85 100 mx rows with
        | none => rw [hb] at h; exact absurd (Except.error.inj h) (by intro hc; cases hc)
        | some rs => rw [hb] at h; exact Except.noConfusion h
      · intro h; exact Option.noConfusion h
  · constructor
    · intro h
      by_contra hnone
      push_neg at hnone
      obtain ⟨hmx, hp2, hp3, hp4⟩ := hnone
      rcases Option.ne_none_iff_exists'.mp hmx with ⟨mx, hmx'⟩
      rcases Option.ne_none_iff_exists'.mp hp2 with ⟨p2, hp2'⟩
      rcases Option.ne_none_iff_exists'.mp hp3 with ⟨p3, hp3'⟩
      rcases Option.ne_none_iff_exists'.mp hp4 with ⟨p4, hp4'⟩
      simp only [customStep, hmx', hp2', hp3', hp4'] at h
      match hb : binMeasurement m.measurementID p2 p3 p4 100 mx rows with
      | none => rw [hb] at h; exact absurd (Except.error.inj h) (by intro hc; cases hc)
      | some rs => rw [hb] at h; exact Except.noConfusion h
    · intro h
      exact customStep_config_of_missing m h rows
  · rintro ⟨mbad, hmem, hbad⟩
    unfold normalizeData
    rcases hbad with ⟨hscale, hmx⟩ | ⟨hscale, hmiss⟩
    · have hmem' : mbad ∈ ms.filter (isScale "Raw Scores (Standard Bins)") :=
        List.mem_filter.mpr ⟨hmem, hscale⟩
      have hfail : ∀ rs, ∃ e, stdStep mbad rs = .error e := by
        intro rs
        exact ⟨.config mbad.measurementID, by simp [stdStep, hmx]⟩
      obtain ⟨e, he⟩ := foldSteps_error_of_mem stdStep _ mbad hmem' hfail (roundPhase ms rows2)
      exact ⟨e, by rw [he]⟩
    · have hmem' : mbad ∈ ms.filter (isScale "Raw Scores (Custom Bins)") :=
        List.mem_filter.mpr ⟨hmem, hscale⟩
      have hfail : ∀ rs, ∃ e, customStep mbad rs = .error e := by
        intro rs
        exact ⟨.config mbad.measurementID, customStep_config_of_missing mbad hmiss rs⟩
      match hstd : foldSteps stdStep (ms.filter (isScale "Raw Scores (Standard Bins)"))
          (roundPhase ms rows2) with
      | .error e => exact ⟨e, rfl⟩
      | .ok rows' =>
        obtain ⟨e, he⟩ := foldSteps_error_of_mem customStep _ mbad hmem' hfail rows'
        exact ⟨e, he⟩
  · intro hgood mid h
    unfold normalizeData at h
    have hstd_no : ∀ m' ∈ ms.filter (isScale "Raw Scores (Standard Bins)"),
        ∀ rs mid', stdStep m' rs ≠ .error (.config mid') := by
      intro m' hm' rs mid' hc
      obtain ⟨hmem, hscale⟩ := List.mem_filter.mp hm'
      rcases hmx : m'.maxScore with _ | mx
      · exact hgood m' hmem (Or.inl ⟨hscale, hmx⟩)
      · simp only [stdStep, hmx] at hc
        match hb : binMeasurement m'.measurementID 50 60 85 100 mx rs with
        | none => rw [hb] at hc; exact absurd (Except.error.inj hc) (by intro hcc; cases hcc)
        | some rs' => rw [hb] at hc; exact Except.noConfusion hc
    have hcus_no : ∀ m' ∈ ms.filter (isScale "Raw Scores (Custom Bins)"),
        ∀ rs mid', customStep m' rs ≠ .error (.config mid') := by
      intro m' hm' rs mid' hc
      obtain ⟨hmem, hscale⟩ := List.mem_filter.mp hm'
      rcases hmx : m'.maxScore with _ | mx
      · exact hgood m' hmem (Or.inr ⟨hscale, Or.inl hmx⟩)
      rcases hp2 : m'.minPercentScore2 with _ | p2
      · exact hgood m' hmem (Or.inr ⟨hscale, Or.inr (Or.inl hp2)⟩)
      rcases hp3 : m'.minPercentScore3 with _ | p3
      · exact hgood m' hmem (Or.inr ⟨hscale, Or.inr (Or.inr (Or.inl hp3))⟩)
      rcases hp4 : m'.minPercentScore4 with _ | p4
      · exact hgood m' hmem (Or.inr ⟨hscale, Or.inr (Or.inr (Or.inr hp4))⟩)
      simp only [customStep, hmx, hp2, hp3, hp4] at hc
      match hb : binMeasurement m'.measurementID p2 p3 p4 100 mx rs with
      | none => rw [hb] at hc; exact absurd (Except.error.inj hc) (by intro hcc; cases hcc)
      | some rs' => rw [hb] at hc; exact Except.noConfusion hc
    match hstd : foldSteps stdStep (ms.filter (isScale "Raw Scores (Standard Bins)"))
        (roundPhase ms rows2) with
    | .error e =>
      rw [hstd] at h
      cases h
      exact foldSteps_no_config stdStep _ hstd_no (roundPhase ms rows2) mid hstd
    | .ok rows' =>
      rw [hstd] at h
      exact foldSteps_no_config customStep _ hcus_no rows' mid h

theorem c4_witness :
    stdStep ⟨Value.str "M9", Value.str "Raw Scores (Standard Bins)", none, none, none, none⟩ [] =
      .error (.config (Value.str "M9")) :=
  (c4_config_errors
    ⟨Value.str "M9", Value.str "Raw Scores (Standard Bins)", none, none, none, none⟩
    [] [] []).1.mpr rfl

theorem pdCut4_none_of_out (b1 b2 b3 b4 v : ℚ) (h0 : 0 ≤ b1) (h12 : b1 ≤ b2)
    (h23 : b2 ≤ b3) (h34 : b3 ≤ b4) (hout : v < 0 ∨ b4 < v) :
    pdCut4 b1 b2 b3 b4 v = none := by
  unfold pdCut4
  rcases hout with h | h
  · rw [if_pos h]
  · have nv : ¬ v < 0 := by linarith
    have n1 : ¬ v ≤ b1 := by linarith
    have n2 : ¬ v ≤ b2 := by linarith
    have n3 : ¬ v ≤ b3 := by linarith
    have n4 : ¬ v ≤ b4 := by linarith
    rw [if_neg nv, if_neg n1, if_neg n2, if_neg n3, if_neg n4]

theorem binMeasurement_none (mid : Value) (b1 b2 b3 b4 mx : ℚ) (rows : List DataRow)
    (r : DataRow) (hr : r ∈ rows) (hmatch : pandasEq r.measurementID mid = true)
    (hcut : pdCut4 b1 b2 b3 b4 (r.value / mx * 100) = none) :
    binMeasurement mid b1 b2 b3 b4 mx rows = none := by
  unfold binMeasurement
  apply mapOpt_eq_none_of_mem _ rows r hr
  simp [hmatch, hcut]

theorem roundPhase_single_nonceab (m : Meas) (rows : List DataRow)
    (h : isScale "CEAB (1-4)" m = false) : roundPhase [m] rows = rows := by
  unfold roundPhase
  simp [List.filter_cons, h]

/-- Claim C9: for a standard-bins or custom-bins measurement whose
configuration is present, any data value whose percentage falls outside the
bin range [0, 100] (for instance a raw value strictly above maxScore with
positive maxScore) makes `pd.cut` produce NaN, so the subsequent
`.astype(int)` raises and the load aborts during conversion — the value
never survives to the post-normalization range audit (for custom bins the
thresholds are assumed to lie monotonically within [0, 100]; otherwise
`pd.cut` rejects the bins even earlier). -/
theorem c9_out_of_range_aborts :
    (∀ (m : Meas) (rows : List DataRow) (r : DataRow) (mx : ℚ),
      m.maxScore = some mx → r ∈ rows → pandasEq r.measurementID m.measurementID = true →
      (r.value / mx * 100 < 0 ∨ 100 < r.value / mx * 100) →
      stdStep m rows = .error (.castNaN m.measurementID) ∧
        (m.gradeScale = Value.str "Raw Scores (Standard Bins)" →
          normalizeAndAudit [m] rows = .error (.castNaN m.measurementID))) ∧
    (∀ (m : Meas) (rows : List DataRow) (r : DataRow) (mx p2 p3 p4 : ℚ),
      m.maxScore = some mx → m.minPercentScore2 = some p2 → m.minPercentScore3 = some p3 →
      m.minPercentScore4 = some p4 →
      0 ≤ p2 → p2 ≤ p3 → p3 ≤ p4 → p4 ≤ 100 →
      r ∈ rows → pandasEq r.measurementID m.measurementID = true →
      (r.value / mx * 100 < 0 ∨ 100 < r.value / mx * 100) →
      customStep m rows = .error (.castNaN m.measurementID) ∧
        (m.gradeScale = Value.str "Raw Scores (Custom Bins)" →
          normalizeAndAudit [m] rows = .error (.castNaN m.measurementID))) := by
  constructor
  · intro m rows r mx hmx hr hmatch hout
    have hcut : pdCut4 50 60 85 100 (r.value / mx * 100) = none :=
      pdCut4_none_of_out 50 60 85 100 _ (by norm_num) (by norm_num) (by norm_num)
        (by norm_num) hout
    have hbin : binMeasurement m.measurementID 50 60 85 100 mx rows = none :=
      binMeasurement_none m.measurementID 50 60 85 100 mx rows r hr hmatch hcut
    have hstd : stdStep m rows = .error (.castNaN m.measurementID) := by
      simp only [stdStep, hmx, hbin]
    refine ⟨hstd, ?_⟩
    intro hgs
    have hceab : isScale "CEAB (1-4)" m = false := by
      simp [isScale, pandasEq, hgs]
    have hstdscale : isScale "Raw Scores (Standard Bins)" m = true := by
      simp [isScale, pandasEq, hgs]
    have hcusscale : isScale "Raw Scores (Custom Bins)" m = false := by
      simp [isScale, pandasEq, hgs]
    unfold normalizeAndAudit normalizeData
    rw [roundPhase_single_nonceab m rows hceab]
    simp [List.filter_cons, hstdscale, hcusscale, foldSteps, hstd]
  · intro m rows r mx p2 p3 p4 hmx hp2 hp3 hp4 hb0 hb12 hb23 hb34 hr hmatch hout
    have hcut : pdCut4 p2 p3 p4 100 (r.value / mx * 100) = none :=
      pdCut4_none_of_out p2 p3 p4 100 _ hb0 hb12 hb23 hb34 hout
    have hbin : binMeasurement m.measurementID p2 p3 p4 100 mx rows = none :=
      binMeasurement_none m.measurementID p2 p3 p4 100 mx rows r hr hmatch hcut
    have hcus : customStep m rows = .error (.castNaN m.measurementID) := by
      simp only [customStep, hmx, hp2, hp3, hp4, hbin]
    refine ⟨hcus, ?_⟩
    intro hgs
    have hceab : isScale "CEAB (1-4)" m = false := by
      simp [isScale, pandasEq, hgs]
    have hstdscale : isScale "Raw Scores (Standard Bins)" m = false := by
      simp [isScale, pandasEq, hgs]
    have hcusscale : isScale "Raw Scores (Custom Bins)" m = true := by
      simp [isScale, pandasEq, hgs]
    unfold normalizeAndAudit normalizeData
    rw [roundPhase_single_nonceab m rows hceab]
    simp [List.filter_cons, hstdscale, hcusscale, foldSteps, hcus]

theorem c9_witness :
    stdStep c9Meas [c9Row] = .error (.castNaN (Value.str "M2")) ∧
      normalizeAndAudit [c9Meas] [c9Row] = .error (.castNaN (Value.str "M2")) := by
  have h := c9_out_of_range_aborts.1 c9Meas [c9Row] c9Row 10 rfl
    (List.mem_cons_self _ _) (by decide) (Or.inr (by norm_num [c9Row]))
  exact ⟨h.1, h.2 rfl⟩

theorem nullAuditTable_data_empty (w : WideData) :
    nullAuditTable "data" (dataTableOf w) = [] := by
  rw [List.eq_nil_iff_forall_not_mem]
  intro x hx
  rw [mem_nullAuditTable] at hx
  obtain ⟨col, hcol, r, hr, hnull, _⟩ := hx
  simp only [dataTableOf, List.mem_map] at hr
  obtain ⟨d, hd, hcells⟩ := hr
  obtain ⟨j, mstr, _, _, hmid, hstud, _⟩ := filterIndexed_mem_get (meltData w) 0 d hd
  have hcol' : col = "dataID" ∨ col = "studentID" ∨ col = "measurementID" ∨ col = "value" := by
    simpa [noNanColumns, valid_keys_in] using hcol
  subst hcells
  rcases hcol' with rfl | rfl | rfl | rfl
  · have he : getCellD (dataTableOf w).cols (dataRowCells d) "dataID" = Value.num d.dataID := rfl
    rw [he] at hnull
    exact Value.noConfusion hnull
  · have he : getCellD (dataTableOf w).cols (dataRowCells d) "studentID" = d.studentID := rfl
    rw [he] at hnull
    exact hstud hnull
  · have he : getCellD (dataTableOf w).cols (dataRowCells d) "measurementID" =
        d.measurementID := rfl
    rw [he, hmid] at hnull
    exact Value.noConfusion hnull
  · have he : getCellD (dataTableOf w).cols (dataRowCells d) "value" = Value.num d.value := rfl
    rw [he] at hnull
    exact Value.noConfusion hnull

/-- Claim C7: on a loaded dataset (whose data table came out of the
null/zero filtering), the NaN audit can only ever emit warnings about the
Instructor, Course and Measurement tables — never about DataPoint, whose
rows contain no nulls by construction; every emitted warning names a column
in the audited list, which excludes maxScore, minPercentScore2..4 and
improvementTheme; and a warning is emitted precisely for each null cell in
an audited column, carrying the owning table, the column, and the row's
`f'{table}ID'` value.  The audit is a pure diagnostic: it returns warnings
and neither drops rows nor aborts the load. -/
theorem c7_null_audit (c : CEAB) (wide : WideData) (hdata : c.data = dataTableOf wide) :
    (∀ w ∈ nullAudit c, w.table ∈ ["instructor", "course", "measurement"]) ∧
    (∀ w ∈ nullAudit c, w.column ∈ noNanColumns w.table ∧
      w.column ∉ ["maxScore", "minPercentScore2", "minPercentScore3", "minPercentScore4",
        "improvementTheme"]) ∧
    (∀ name t w', w' ∈ nullAuditTable name t ↔ ∃ col ∈ noNanColumns name, ∃ r ∈ t.rows,
      getCellD t.cols r col = Value.null ∧
      w' = ⟨name, col, getCellD t.cols r (name ++ "ID")⟩) := by
  have htab : ∀ name t (w' : NullWarning), w' ∈ nullAuditTable name t →
      w'.table = name ∧ w'.column ∈ noNanColumns name := by
    intro name t w' hw
    rw [mem_nullAuditTable] at hw
    obtain ⟨col, hcol, r, hr, hnull, hw'⟩ := hw
    subst hw'
    exact ⟨rfl, hcol⟩
  have hsplit : ∀ w ∈ nullAudit c,
      w ∈ nullAuditTable "instructor" c.instructor ∨ w ∈ nullAuditTable "course" c.course ∨
        w ∈ nullAuditTable "measurement" c.measurement := by
    intro w hw
    unfold nullAudit at hw
    rw [hdata, nullAuditTable_data_empty] at hw
    simp only [List.append_nil, List.mem_append] at hw
    tauto
  refine ⟨?_, ?_, fun name t w' => mem_nullAuditTable w' name t⟩
  · intro w hw
    rcases hsplit w hw with h | h | h <;>
      rw [(htab _ _ _ h).1] <;> simp
  · intro w hw
    have hfive : ∀ nm, nm = "instructor" ∨ nm = "course" ∨ nm = "measurement" →
        ∀ col ∈ noNanColumns nm,
          col ∉ ["maxScore", "minPercentScore2", "minPercentScore3", "minPercentScore4",
            "improvementTheme"] := by
      rintro nm (rfl | rfl | rfl) <;> decide
    rcases hsplit w hw with h | h | h
    · obtain ⟨htb, hcl⟩ := htab _ _ _ h
      exact ⟨htb ▸ hcl, hfive _ (Or.inl htb) _ (htb ▸ hcl)⟩
    · obtain ⟨htb, hcl⟩ := htab _ _ _ h
      exact ⟨htb ▸ hcl, hfive _ (Or.inr (Or.inl htb)) _ (htb ▸ hcl)⟩
    · obtain ⟨htb, hcl⟩ := htab _ _ _ h
      exact ⟨htb ▸ hcl, hfive _ (Or.inr (Or.inr htb)) _ (htb ▸ hcl)⟩

theorem c7_witness :
    (⟨"instructor", "firstName", Value.num 1⟩ : NullWarning) ∈
      nullAuditTable "instructor" c7CEAB.instructor :=
  ((c7_null_audit c7CEAB ⟨[], []⟩ rfl).2.2 "instructor" c7CEAB.instructor
      ⟨"instructor", "firstName", Value.num 1⟩).mpr
    ⟨"firstName", by decide, [Value.num 1, Value.null, Value.str "X"], by decide,
      by decide, by decide⟩

/-- Claim C8 (amended): the query fails whenever criteria is not a dict,
whenever the table name is not one of the four table attributes, and
whenever a criteria key is not a column of that table; otherwise — PROVIDED
the table carries its `f'{table_name}ID'` column, as every loaded dataset's
tables do — it returns the primary-key values of exactly the rows satisfying
every equality criterion (pandas equality, so null matches nothing).  On the
no-source dataset the proviso fails: the final `df[f'{table_name}ID']`
lookup raises `KeyError` even for well-formed arguments. -/
theorem c8_query (c : CEAB) (name : String) (crits : List (String × Value)) :
    (get_row_IDs_matching_criteria c name Criteria.notDict = .error .typeErrorCriteria) ∧
    (getTable c name = none →
      get_row_IDs_matching_criteria c name (.dict crits) = .error (.attrError name)) ∧
    (∀ t k v, getTable c name = some t → (k, v) ∈ crits → k ∉ t.cols →
      ∃ e, get_row_IDs_matching_criteria c name (.dict crits) = .error e) ∧
    (∀ t, getTable c name = some t → (∀ kv ∈ crits, kv.1 ∈ t.cols) →
      (name ++ "ID") ∈ t.cols →
      get_row_IDs_matching_criteria c name (.dict crits) =
        .ok ((t.rows.filter (fun r =>
            crits.all (fun kv => pandasEq (getCellD t.cols r kv.1) kv.2))).map
          (fun r => getCellD t.cols r (name ++ "ID")))) := by
  refine ⟨rfl, ?_, ?_, ?_⟩
  · intro h
    simp only [get_row_IDs_matching_criteria, h]
  · intro t k v ht hk hbad
    obtain ⟨e, he⟩ := applyCriteria_error_of_bad_key t.cols crits k v hk hbad t.rows
    exact ⟨e, by simp only [get_row_IDs_matching_criteria, ht, he]⟩
  · intro t ht hvalid hid
    simp only [get_row_IDs_matching_criteria, ht,
      applyCriteria_ok t.cols crits hvalid t.rows, if_pos hid]

/-- Counterexample to claim C8: on the no-source dataset `CEAB()`, the call
`get_row_IDs_matching_criteria('instructor', {})` has a known table name and
a valid (empty) criteria mapping, yet it raises `KeyError` on the final
`df['instructorID']` lookup instead of returning a (empty) list of
primary-key values. -/
theorem c8_counterexample :
    get_row_IDs_matching_criteria emptyCEAB "instructor" (.dict []) =
      .error (.keyError ("instructor" ++ "ID")) ∧
    getTable emptyCEAB "instructor" = some emptyTable := ⟨rfl, rfl⟩

theorem c8_witness :
    get_row_IDs_matching_criteria c8CEAB "instructor"
        (.dict [("firstName", Value.str "A")]) =
      .ok [Value.num 1, Value.num 2] := by
  have h := (c8_query c8CEAB "instructor" [("firstName", Value.str "A")]).2.2.2
    c8CEAB.instructor rfl (by decide) (by decide)
  exact h.trans (by decide)
